import Mathlib

/-
Verification of the reader abstraction in se_apps/include/interface.h
(supereight): the DepthReader contract, the frame pacer, the RawDepthReader
binary container reader and the ground-truth pose parser.

Shallow embedding conventions:
* files are byte lists (`List Nat`, one entry per byte), the C file cursor is
  an explicit `Nat` position;
* `fread`/`fseeko` are modelled by pure functions (`freadItems`, `freadBytes`);
  `fread` transfers complete elements and advances the cursor by the bytes of
  the complete elements transferred;
* `double` wall-clock arithmetic of the pacer is modelled over `ℚ`;
* text lines are `List Char`; `std::stof` is modelled by `stofQ` on plain
  decimal literals, with `none` standing for the `std::invalid_argument`
  exception;
* Eigen 4x4 float matrices are `Mat4` over `ℚ`.
-/

/-- A 4x4 matrix with rational entries, row-major, modelling Eigen::Matrix4f. -/
abbrev Mat4 : Type := Fin 4 → Fin 4 → ℚ

/-- Matrix product of two 4x4 matrices. -/
def mat4Mul (A B : Mat4) : Mat4 := fun i j =>
  A i 0 * B 0 j + A i 1 * B 1 j + A i 2 * B 2 j + A i 3 * B 3 j

/-- The 4x4 identity matrix, Eigen::Matrix4f::Identity(). -/
def mat4Id : Mat4 :=
  ![![1, 0, 0, 0], ![0, 1, 0, 0], ![0, 0, 1, 0], ![0, 0, 0, 1]]

/-- Rotation matrix of the quaternion with scalar part w and vector part
(x, y, z), exactly the polynomial computed by Eigen's
Quaternion::toRotationMatrix (which assumes a unit quaternion and does not
normalise). -/
def quatRot (w x y z : ℚ) : Fin 3 → Fin 3 → ℚ :=
  let tx := 2 * x
  let ty := 2 * y
  let tz := 2 * z
  let twx := tx * w
  let twy := ty * w
  let twz := tz * w
  let txx := tx * x
  let txy := ty * x
  let txz := tz * x
  let tyy := ty * y
  let tyz := tz * y
  let tzz := tz * z
  ![![1 - (tyy + tzz), txy - twz, txz + twy],
    ![txy + twz, 1 - (txx + tzz), tyz - twx],
    ![txz - twy, tyz + twx, 1 - (txx + tyy)]]

/-- The pose matrix built inside DepthReader::readNextPose: start from the
identity, overwrite the upper-left 3x3 block with the quaternion's rotation
matrix and the upper three entries of the last column with the translation. -/
def poseMatrix (tx ty tz qx qy qz qw : ℚ) : Mat4 :=
  let R := quatRot qw qx qy qz
  ![![R 0 0, R 0 1, R 0 2, tx],
    ![R 1 0, R 1 1, R 1 2, ty],
    ![R 2 0, R 2 1, R 2 2, tz],
    ![0, 0, 0, 1]]

/-- Characters of a string literal, used to write ground-truth lines. -/
def str (s : String) : List Char := s.data

/-- Helper for `splitFields`: accumulates the current field in reverse. -/
def splitFieldsAux (delim : Char) : List Char → List Char → List (List Char)
  | [], acc => if acc = [] then [] else [acc.reverse]
  | c :: cs, acc =>
    if c = delim then
      if acc = [] then splitFieldsAux delim cs []
      else acc.reverse :: splitFieldsAux delim cs []
    else splitFieldsAux delim cs (c :: acc)

/-- Modelled from the spec: the helper splitString from str_utils.h is not in
the sources. The spec describes ground-truth records as whitespace-separated
fields, so a line splits into its maximal nonempty runs of non-delimiter
characters. -/
def splitFields (delim : Char) (cs : List Char) : List (List Char) :=
  splitFieldsAux delim cs []

/-- Value of a decimal digit character, none for a non-digit. -/
def digitVal (c : Char) : Option Nat :=
  if c = '0' then some 0 else if c = '1' then some 1 else if c = '2' then some 2
  else if c = '3' then some 3 else if c = '4' then some 4 else if c = '5' then some 5
  else if c = '6' then some 6 else if c = '7' then some 7 else if c = '8' then some 8
  else if c = '9' then some 9 else none

/-- Reads a run of decimal digits: accumulated value, number of digits read,
rest of the input. -/
def takeDigits : List Char → Nat → Nat → Nat × Nat × List Char
  | [], v, n => (v, n, [])
  | c :: cs, v, n =>
    match digitVal c with
    | some d => takeDigits cs (10 * v + d) (n + 1)
    | none => (v, n, c :: cs)

/-- Model of std::stof restricted to plain decimal literals (optional sign,
integer digits, optional fractional part), the format of ground-truth files.
`none` models the std::invalid_argument exception thrown when no conversion
can be performed. -/
def stofQ (cs : List Char) : Option ℚ :=
  let signed : ℚ × List Char :=
    match cs with
    | '-' :: r => (-1, r)
    | '+' :: r => (1, r)
    | r => (1, r)
  let ip := takeDigits signed.2 0 0
  let fp :=
    match ip.2.2 with
    | '.' :: r => takeDigits r 0 0
    | _ => ((0 : Nat), (0 : Nat), ip.2.2)
  if ip.2.1 = 0 ∧ fp.2.1 = 0 then none
  else some (signed.1 * ((ip.1 : ℚ) + (fp.1 : ℚ) / ((10 : ℚ) ^ fp.2.1)))

/-- Outcome of one DepthReader::readNextPose call: a parsed pose, a false
return, or an uncaught std::stof exception. -/
inductive PoseResult
  | ok (pose : Mat4)
  | fail
  | thrown
deriving DecidableEq

/-- DepthReader::readNextPose, lines 128-164 of interface.h, as a function of
the remaining ground-truth lines. Returns the result, the number of lines
consumed by getline, and the updated _pose_num. A line starting with '#' is
skipped; a non-comment line with fewer than 7 whitespace-separated fields
returns false at once; otherwise the last seven fields are parsed as
tx ty tz qx qy qz qw and the pose is _transform * (identity with rotation
block from the quaternion and translation column from the translation). -/
def parsePoseLines (T : Mat4) : List (List Char) → Int → PoseResult × Nat × Int
  | [], pn => (.fail, 0, pn)
  | l :: rest, pn =>
    if l.head? = some '#' then
      let p := parsePoseLines T rest pn
      (p.1, p.2.1 + 1, p.2.2)
    else
      let fs := splitFields ' ' l
      let n := fs.length
      if n < 7 then (.fail, 1, pn)
      else
        match stofQ (fs.getD (n - 7) []), stofQ (fs.getD (n - 6) []),
              stofQ (fs.getD (n - 5) []), stofQ (fs.getD (n - 4) []),
              stofQ (fs.getD (n - 3) []), stofQ (fs.getD (n - 2) []),
              stofQ (fs.getD (n - 1) []) with
        | some tx, some ty, some tz, some qx, some qy, some qz, some qw =>
          (.ok (mat4Mul T (poseMatrix tx ty tz qx qy qz qw)), 1, pn + 1)
        | _, _, _, _, _, _, _ => (.thrown, 1, pn)

/-- State of a RawDepthReader (and the DepthReader fields it inherits).
The raw file is a byte list, the C file cursor an explicit position; the
attached ground-truth stream is the list of its lines plus a line cursor,
none when no ground-truth file is attached; epoch models the function-local
static first_frame of get_next_frame. -/
structure RawReader where
  rawFile : List Nat
  pos : Nat
  width : Nat
  height : Nat
  frame : Int
  fps : Nat
  blocking : Bool
  cameraOpen : Bool
  cameraActive : Bool
  epoch : Option ℚ
  transform : Mat4
  gt : Option (List (List Char))
  gtPos : Nat
  poseNum : Int
deriving DecidableEq

/-- Outcome of the RawDepthReader configuration constructor.
ub: the data path did not open (fopen returned NULL) and the constructor
passes the NULL stream straight to fread - undefined behavior.
gtOpenFail: the ground-truth file did not open; the constructor returns
early with _rawFilePtr = NULL and cameraOpen/cameraActive uninitialized.
headerFail: the header fread did not return one record; cameraOpen and
cameraActive are set false but _frame, _fps and _blocking_read stay
uninitialized. -/
inductive ConsResult
  | ub
  | gtOpenFail
  | headerFail
  | ok (r : RawReader)

/-- Little-endian byte access helpers for the container file. -/
def byteAt (file : List Nat) (i : Nat) : Nat := file.getD i 0

/-- A little-endian 32-bit unsigned integer starting at byte i. -/
def le32 (file : List Nat) (i : Nat) : Nat :=
  byteAt file i + 256 * byteAt file (i + 1) + 65536 * byteAt file (i + 2)
    + 16777216 * byteAt file (i + 3)

/-- The two 32-bit dimensions starting at byte i (width, height). -/
def readDims (file : List Nat) (i : Nat) : Nat × Nat :=
  (le32 file i, le32 file (i + 4))

/-- Number of complete elements fread(buf, size, nmemb, f) transfers when the
cursor is at pos. -/
def freadItems (file : List Nat) (pos size nmemb : Nat) : Nat :=
  min nmemb ((file.length - pos) / size)

/-- The bytes such an fread stores into the caller's buffer. -/
def freadBytes (file : List Nat) (pos size nmemb : Nat) : List Nat :=
  (file.drop pos).take (size * freadItems file pos size nmemb)

/-- RawDepthReader::RawDepthReader(const ReaderConfiguration&), lines 322-356.
gtPathGiven models config.groundtruth_path != ""; gtContent is the lines of
that file (none when it cannot be opened); rawContent is the byte content of
config.data_path (none when fopen fails). On success _inSize is the
little-endian pair in the first 8 bytes, the cursor is rewound to 0, _frame
is -1 and _pose_num is -1 when a ground-truth file was attached (otherwise
the field is uninitialized in the source; 0 here, never read before being
set). -/
def constructRaw (fps : Nat) (blocking : Bool) (transform : Mat4)
    (gtPathGiven : Bool) (gtContent : Option (List (List Char)))
    (rawContent : Option (List Nat)) : ConsResult :=
  let gtOpened : Option (Option (List (List Char))) :=
    if gtPathGiven then
      match gtContent with
      | none => none
      | some ls => some (some ls)
    else some none
  match gtOpened with
  | none => .gtOpenFail
  | some gt =>
    match rawContent with
    | none => .ub
    | some bytes =>
      if 8 ≤ bytes.length then
        .ok { rawFile := bytes, pos := 0,
              width := le32 bytes 0, height := le32 bytes 4,
              frame := -1, fps := fps, blocking := blocking,
              cameraOpen := true, cameraActive := true,
              epoch := none, transform := transform,
              gt := gt, gtPos := 0,
              poseNum := if gtPathGiven then -1 else 0 }
      else .headerFail

/-- DepthReader::get_next_frame, lines 96-126. Returns the updated state and
the seconds slept. With _fps == 0 the frame counter is incremented and no
sleep happens; otherwise the static epoch is captured on first use, the
frame index becomes ceil((now - epoch) * fps), and in blocking mode the call
sleeps for the remaining time-to-wait when positive. -/
def get_next_frame (now : ℚ) (s : RawReader) : RawReader × ℚ :=
  if s.fps = 0 then ({ s with frame := s.frame + 1 }, 0)
  else
    let e := s.epoch.getD now
    let f : Int := ⌈(now - e) * (s.fps : ℚ)⌉
    let ttw : ℚ := (f : ℚ) * (1 / (s.fps : ℚ)) - now + e
    ({ s with frame := f, epoch := some e },
     if s.blocking ∧ 0 < ttw then ttw else 0)

/-- Record size used for the absolute seek in readNextDepthFrame (the
non-LIGHT_RAW build): two unsigned-int pairs plus depth and color payloads
at the header resolution. -/
def sizeOfFrame (w h : Nat) : Nat := 16 + w * h * 2 + w * h * 3

/-- All intermediate values of one RawDepthReader::readNextDepthFrame body
(lines 391-453) after the pacer ran: fread return counts, parsed dimension
pairs, cursor positions, transferred byte lists and the total/expected
element counts the return value compares. -/
structure ReadCtx where
  off : Nat
  r1 : Nat
  dims1 : Nat × Nat
  pos1 : Nat
  n1 : Nat
  dAvail : Nat
  dItems : Nat
  depthBytes : List Nat
  pos2 : Nat
  r2 : Nat
  dims2 : Nat × Nat
  pos3 : Nat
  n2 : Nat
  cAvail : Nat
  cItems : Nat
  colorBytes : List Nat
  pos4 : Nat
  total : Nat
  expected : Nat

/-- The body of readNextDepthFrame as a pure function of the file bytes, the
header resolution, the frame index set by the pacer, the two requested
channels (rd: depthMap non-null, rc: raw_rgb non-null) and the uninitialized
stack value of newImageSize (junk, only visible when the first dimension
fread fails). Follows lines 404-444: absolute seek to size_of_frame * frame,
dimension fread, depth fread or skip-seek, second dimension fread (the
buffer keeps its previous content on failure), color fread or skip-seek. -/
def frameCalc (file : List Nat) (w h : Nat) (fr : Int) (rd rc : Bool)
    (junk : Nat × Nat) : ReadCtx :=
  let off := ((sizeOfFrame w h : Int) * fr).toNat
  let r1 := freadItems file off 8 1
  let dims1 := if r1 = 1 then readDims file off else junk
  let pos1 := off + 8 * r1
  let n1 := dims1.1 * dims1.2
  let dAvail := freadItems file pos1 2 n1
  let dItems := if rd then dAvail else n1
  let depthBytes := if rd then freadBytes file pos1 2 n1 else []
  let pos2 := if rd then pos1 + 2 * dAvail else pos1 + 2 * n1
  let r2 := freadItems file pos2 8 1
  let dims2 := if r2 = 1 then readDims file pos2 else dims1
  let pos3 := pos2 + 8 * r2
  let n2 := dims2.1 * dims2.2
  let cAvail := freadItems file pos3 3 n2
  let cItems := if rc then cAvail else n2
  let colorBytes := if rc then freadBytes file pos3 3 n2 else []
  let pos4 := if rc then pos3 + 3 * cAvail else pos3 + 3 * n2
  { off := off, r1 := r1, dims1 := dims1, pos1 := pos1, n1 := n1,
    dAvail := dAvail, dItems := dItems, depthBytes := depthBytes,
    pos2 := pos2, r2 := r2, dims2 := dims2, pos3 := pos3, n2 := n2,
    cAvail := cAvail, cItems := cItems, colorBytes := colorBytes,
    pos4 := pos4,
    total := r1 + dItems + r2 + cItems,
    expected := 2 + n1 + n2 }

/-- Result of one readNextDepthFrame call: return value, bytes stored into
the depth and color buffers, the message printed on failure, and the reader
state afterwards. -/
structure ReadOut where
  ok : Bool
  depthBytes : List Nat
  colorBytes : List Nat
  msg : Option String
  after : RawReader

/-- RawDepthReader::readNextDepthFrame(uchar3*, unsigned short int*), lines
391-453 (non-LIGHT_RAW build). rd is depthMap != NULL, rc is raw_rgb !=
NULL; now is the wall clock seen by the pacer, junk the uninitialized
newImageSize stack buffer. Returns true iff total == expected_size, printing
"End of file." when total is 0 and "End of file(garbage found)." on a
non-zero short transfer. -/
def RawReader.readNextDepthFrame (rd rc : Bool) (now : ℚ) (junk : Nat × Nat)
    (s0 : RawReader) : ReadOut :=
  let s1 := (get_next_frame now s0).1
  let c := frameCalc s1.rawFile s1.width s1.height s1.frame rd rc junk
  { ok := decide (c.total = c.expected),
    depthBytes := c.depthBytes,
    colorBytes := c.colorBytes,
    msg := if c.total = c.expected then none
           else some (if c.total = 0 then "End of file."
                      else "End of file(garbage found)."),
    after := { s1 with pos := c.pos4 } }

/-- RawDepthReader::restart, lines 458-464: frame and pose sentinels back to
-1, rewind the raw file, and seek the ground-truth stream to its beginning
when one is open. -/
def RawReader.restart (s : RawReader) : RawReader :=
  { s with frame := -1, poseNum := -1, pos := 0,
           gtPos := if s.gt.isSome then 0 else s.gtPos }

/-- DepthReader::readNextPose on the reader state: getline works through the
attached ground-truth lines from the current line cursor; with no open
stream getline fails at once and the function returns false. -/
def RawReader.readNextPose (s : RawReader) : PoseResult × RawReader :=
  match s.gt with
  | none => (.fail, s)
  | some lines =>
    let p := parsePoseLines s.transform (lines.drop s.gtPos) s.poseNum
    (p.1, { s with gtPos := s.gtPos + p.2.1, poseNum := p.2.2 })

/-- Result of RawDepthReader::readNextData: either an uncaught exception
escaping from readNextPose, or a boolean result with the pose (when one was
parsed), the transferred frame bytes and the final state. -/
inductive DataOut
  | thrown (after : RawReader)
  | res (ok : Bool) (pose : Option Mat4) (depthBytes colorBytes : List Nat)
      (after : RawReader)

/-- The default virtual DepthReader::readNextData, lines 74-78: ignores its
arguments, changes nothing and returns false. -/
def DepthReader.readNextData {α : Type} (s : α) : Bool × α := (false, s)

/-- RawDepthReader::readNextData, lines 488-497: read the ground-truth pose
first, then (only if that succeeded, by the short-circuit of &&) the
depth/color frame; true only when both reads succeed. rgbReq and depthReq
are the nullness of the rgb_image and depth_image arguments. -/
def RawReader.readNextData (now : ℚ) (junk : Nat × Nat)
    (rgbReq depthReq : Bool) (s : RawReader) : DataOut :=
  match s.readNextPose with
  | (.thrown, s1) => .thrown s1
  | (.fail, s1) => .res false none [] [] s1
  | (.ok p, s1) =>
    let r := RawReader.readNextDepthFrame depthReq rgbReq now junk s1
    .res r.ok (some p) r.depthBytes r.colorBytes r.after

/-- The part of SceneDepthReader state needed here: its frame index. -/
structure SceneReader where
  frame : Int
deriving DecidableEq

/-- SceneDepthReader::restart, lines 246-248: sets _frame to 0 (not to the
-1 pre-first-frame sentinel). -/
def SceneReader.restart (s : SceneReader) : SceneReader := { s with frame := 0 }

/-- Run get_next_frame over a list of invocation times. -/
def runPacer : List ℚ → RawReader → RawReader
  | [], s => s
  | t :: ts, s => runPacer ts (get_next_frame t s).1

/-- Run a sequence of readNextDepthFrame calls; each input is the wall clock
of the call and the uninitialized stack value. Outputs the (return value,
depth bytes, color bytes) of each call and the final state. -/
def runReads (rd rc : Bool) :
    List (ℚ × (Nat × Nat)) → RawReader → List (Bool × List Nat × List Nat) × RawReader
  | [], s => ([], s)
  | (t, j) :: ins, s =>
    let r := RawReader.readNextDepthFrame rd rc t j s
    let rest := runReads rd rc ins r.after
    ((r.ok, r.depthBytes, r.colorBytes) :: rest.1, rest.2)

/-- A placeholder reader used as a default in match extractions. -/
def nullReader : RawReader :=
  { rawFile := [], pos := 0, width := 0, height := 0, frame := 0,
    fps := 0, blocking := false, cameraOpen := false, cameraActive := false,
    epoch := none, transform := mat4Id, gt := none, gtPos := 0, poseNum := 0 }

/-- Ground-truth file of the C5 witness: the single 8-field line of the
spec's example. -/
def gtLineC5 : List Char := str "1.0 0.0 0.0 0.0 0.0 0.0 0.0 1.0"

/-- Reader of the C5 witness: identity global transform, the one-line
ground-truth file attached, cursors at the start. -/
def wr5 : RawReader := { nullReader with gt := some [gtLineC5], poseNum := -1 }

/-- Reader of the C9 witness: a comment line followed by a 5-field line. -/
def wr9 : RawReader :=
  { nullReader with gt := some [str "# foo", str "1 2 3 4 5"], poseNum := -1 }

/-- Reader of the C8 witness: some mid-stream state with a ground-truth file
attached. -/
def wr8 : RawReader :=
  { nullReader with gt := some [str "# x"], gtPos := 1, pos := 33, frame := 7,
                    poseNum := 4 }

/-- Reader of the C3 witness: fps 2, epoch not yet captured. -/
def wrPacer2 : RawReader := { nullReader with fps := 2 }

/-- The ReadCtx of one readNextDepthFrame call: the frameCalc intermediate
values computed after the pacer has set the frame index. -/
def readCtxOf (rd rc : Bool) (now : ℚ) (junk : Nat × Nat) (s : RawReader) :
    ReadCtx :=
  frameCalc ((get_next_frame now s).1).rawFile ((get_next_frame now s).1).width
    ((get_next_frame now s).1).height ((get_next_frame now s).1).frame rd rc junk

/-- A complete one-frame 1x1 container file: dimension pair, one 16-bit depth
sample, dimension pair, one 3-byte color sample (21 bytes). -/
def w4file : List Nat :=
  [1, 0, 0, 0, 1, 0, 0, 0] ++ [10, 11] ++ [1, 0, 0, 0, 1, 0, 0, 0] ++ [1, 2, 3]

/-- Reader constructed on w4file, fps 0. -/
def w4r : RawReader :=
  match constructRaw 0 false mat4Id false none (some w4file) with
  | .ok r => r
  | _ => nullReader

/-- The same file truncated before the color payload: both dimension pairs
and the depth payload only (18 of the 21 bytes of one frame record). -/
def w4truncFile : List Nat :=
  [1, 0, 0, 0, 1, 0, 0, 0] ++ [10, 11] ++ [1, 0, 0, 0, 1, 0, 0, 0]

/-- Reader constructed on w4truncFile, fps 0. -/
def w4trunc : RawReader :=
  match constructRaw 0 false mat4Id false none (some w4truncFile) with
  | .ok r => r
  | _ => nullReader

/-- A one-frame 1x1 file truncated inside the color payload: both dimension
pairs, the depth payload, and only 1 of the 3 color bytes (19 bytes). -/
def w7file : List Nat :=
  [1, 0, 0, 0, 1, 0, 0, 0] ++ [10, 11] ++ [1, 0, 0, 0, 1, 0, 0, 0] ++ [9]

/-- Reader constructed on w7file, fps 0. -/
def w7r : RawReader :=
  match constructRaw 0 false mat4Id false none (some w7file) with
  | .ok r => r
  | _ => nullReader

/-- A complete one-frame 1x1 file used by the C7 witness. -/
def w7okFile : List Nat :=
  [1, 0, 0, 0, 1, 0, 0, 0] ++ [55, 66] ++ [1, 0, 0, 0, 1, 0, 0, 0] ++ [7, 8, 9]

/-- Reader constructed on w7okFile, fps 0. -/
def w7okr : RawReader :=
  match constructRaw 0 false mat4Id false none (some w7okFile) with
  | .ok r => r
  | _ => nullReader

/-- The fields of the reader state a readNextDepthFrame call depends on when
fps is 0: file bytes, header resolution, frame index and fps. -/
def readObs (s : RawReader) : List Nat × Nat × Nat × Int × Nat :=
  (s.rawFile, s.width, s.height, s.frame, s.fps)

/-- Container file of the C2 theorems: two 1x1 frames with distinct depth
and color payloads. -/
def c2file : List Nat :=
  [1, 0, 0, 0, 1, 0, 0, 0] ++ [10, 11] ++ [1, 0, 0, 0, 1, 0, 0, 0] ++ [1, 2, 3]
    ++ [1, 0, 0, 0, 1, 0, 0, 0] ++ [20, 21] ++ [1, 0, 0, 0, 1, 0, 0, 0]
    ++ [4, 5, 6]

/-- Reader of the C2 witness: c2file at fps 0. -/
def w2r : RawReader :=
  match constructRaw 0 false mat4Id false none (some c2file) with
  | .ok r => r
  | _ => nullReader

/-- Reader of the C2 counterexample: the same two-frame file at fps 1. -/
def c2r1 : RawReader :=
  match constructRaw 1 false mat4Id false none (some c2file) with
  | .ok r => r
  | _ => nullReader

/-- C1: the claim says a failed RawDepthReader construction ends with
cameraOpen and cameraActive false, later readNextDepthFrame calls are
side-effect-free no-ops returning false, and no crash occurs. The code
instead reaches undefined behavior: with a bad data path fopen returns NULL
and the constructor passes the NULL stream directly to fread; with an
unopenable ground-truth file it returns early leaving cameraOpen and
cameraActive uninitialized and _rawFilePtr NULL, so a later read crashes in
fseeko. This theorem evaluates the constructor model at both failing
inputs. -/
theorem c1_construction_failure_reaches_undefined_behavior :
    constructRaw 0 false mat4Id false none none = ConsResult.ub ∧
    constructRaw 0 false mat4Id true none (some [1, 2, 3]) =
      ConsResult.gtOpenFail :=
  ⟨rfl, rfl⟩

/-- C10: a blank ground-truth line is not skipped like a comment:
line[0] == '#' is false for the empty line, splitting it yields fewer than 7
fields, and readNextPose returns false having consumed the line. -/
theorem c10_blank_line_fails (s : RawReader) (ls rest : List (List Char))
    (hgt : s.gt = some ls) (hdrop : ls.drop s.gtPos = [] :: rest) :
    s.readNextPose = (PoseResult.fail, { s with gtPos := s.gtPos + 1 }) := by
  simp [RawReader.readNextPose, hgt, hdrop, parsePoseLines, splitFields,
    splitFieldsAux]

/-- Witness for C10 at a concrete reader whose ground-truth file is a single
blank line. -/
theorem c10_blank_line_fails_witness :
    RawReader.readNextPose { nullReader with gt := some [[]] } =
      (PoseResult.fail, { nullReader with gt := some [[]], gtPos := 1 }) := by
  have h := c10_blank_line_fails { nullReader with gt := some [[]] } [[]] [] rfl rfl
  simpa using h

/-- C8 counterexample: SceneDepthReader::restart sets the frame index to 0,
not to the pre-first-frame sentinel -1 required by the claim. -/
theorem c8_scene_restart_not_sentinel :
    (SceneReader.restart { frame := 5 }).frame = 0 ∧
    ((SceneReader.restart { frame := 5 }).frame = -1 → False) := by decide

/-- C8 amended: RawDepthReader::restart resets the frame index to -1, rewinds
the raw-file cursor, resets the pose index to -1 and rewinds the ground-truth
cursor when a ground-truth stream is attached, and is a total operation on
any reader state; SceneDepthReader::restart instead sets the frame index
to 0. -/
theorem c8_restart_resets (s : RawReader) (t : SceneReader) :
    (RawReader.restart s).frame = -1 ∧ (RawReader.restart s).pos = 0 ∧
    (RawReader.restart s).poseNum = -1 ∧
    (s.gt.isSome = true → (RawReader.restart s).gtPos = 0) ∧
    (SceneReader.restart t).frame = 0 := by
  refine ⟨rfl, rfl, rfl, fun h => ?_, rfl⟩
  simp [RawReader.restart, h]

/-- Witness for C8 at a concrete mid-stream reader with an attached
ground-truth stream. -/
theorem c8_restart_resets_witness :
    (RawReader.restart wr8).frame = -1 ∧ (RawReader.restart wr8).pos = 0 ∧
    (RawReader.restart wr8).poseNum = -1 ∧ (RawReader.restart wr8).gtPos = 0 ∧
    (SceneReader.restart { frame := 3 }).frame = 0 := by
  have h := c8_restart_resets wr8 { frame := 3 }
  exact ⟨h.1, h.2.1, h.2.2.1, h.2.2.2.1 rfl, h.2.2.2.2⟩

/-- C9: readNextPose skips a line beginning with '#' without touching the
pose index (the whole call behaves as if the reader had started one line
further on), while the first non-comment line with fewer than 7 fields makes
the call return false at once - the result does not depend on the lines
after it, so the bad line is not skipped. -/
theorem c9_comment_skip_and_short_line_fail (s : RawReader)
    (ls : List (List Char)) (l : List Char) (rest : List (List Char))
    (hgt : s.gt = some ls) (hdrop : ls.drop s.gtPos = l :: rest) :
    (l.head? = some '#' →
      s.readNextPose = RawReader.readNextPose { s with gtPos := s.gtPos + 1 }) ∧
    (l.head? ≠ some '#' → (splitFields ' ' l).length < 7 →
      s.readNextPose = (PoseResult.fail, { s with gtPos := s.gtPos + 1 })) := by
  have hdrop1 : ls.drop (s.gtPos + 1) = rest := by
    rw [← List.tail_drop, hdrop]
    rfl
  constructor
  · intro hc
    have e1 : parsePoseLines s.transform (ls.drop s.gtPos) s.poseNum =
        ((parsePoseLines s.transform rest s.poseNum).1,
         (parsePoseLines s.transform rest s.poseNum).2.1 + 1,
         (parsePoseLines s.transform rest s.poseNum).2.2) := by
      rw [hdrop]
      simp only [parsePoseLines, hc, if_pos]
    have harith : s.gtPos + ((parsePoseLines s.transform rest s.poseNum).2.1 + 1)
        = s.gtPos + 1 + (parsePoseLines s.transform rest s.poseNum).2.1 := by omega
    simp only [RawReader.readNextPose, hgt, hdrop1, e1, harith]
  · intro hnc hlen
    simp [RawReader.readNextPose, hgt, hdrop, parsePoseLines, hnc, hlen]

/-- Witness for C9: the comment line "# foo" is skipped (the call equals the
call starting on the next line), and the 5-field line "1 2 3 4 5" then makes
the read fail. -/
theorem c9_comment_skip_and_short_line_fail_witness :
    (wr9.readNextPose = RawReader.readNextPose { wr9 with gtPos := 1 }) ∧
    RawReader.readNextPose { wr9 with gtPos := 1 } =
      (PoseResult.fail, { wr9 with gtPos := 2 }) := by
  constructor
  · exact (c9_comment_skip_and_short_line_fail wr9 [str "# foo", str "1 2 3 4 5"]
      (str "# foo") [str "1 2 3 4 5"] rfl rfl).1 (by decide)
  · have h := (c9_comment_skip_and_short_line_fail { wr9 with gtPos := 1 }
      [str "# foo", str "1 2 3 4 5"] (str "1 2 3 4 5") [] rfl (by decide)).2
      (by decide) (by decide)
    simpa using h

/-- C6: the base-class DepthReader::readNextData ignores its arguments and
returns false with no state change; RawDepthReader::readNextData reads the
ground-truth pose first, reads the depth/color frame only when the pose read
succeeded (short-circuit of &&), and returns true exactly when both reads
succeed. -/
theorem c6_read_combined (now : ℚ) (junk : Nat × Nat) (rq dq : Bool)
    (s : RawReader) :
    (∀ (α : Type) (x : α), DepthReader.readNextData x = (false, x)) ∧
    (s.readNextPose.1 = PoseResult.fail →
      RawReader.readNextData now junk rq dq s =
        DataOut.res false none [] [] s.readNextPose.2) ∧
    (∀ p, s.readNextPose.1 = PoseResult.ok p →
      RawReader.readNextData now junk rq dq s =
        (let r := RawReader.readNextDepthFrame dq rq now junk s.readNextPose.2
         DataOut.res r.ok (some p) r.depthBytes r.colorBytes r.after)) ∧
    (∀ ok p d c a,
      RawReader.readNextData now junk rq dq s = DataOut.res ok p d c a →
      (ok = true ↔ (∃ q, s.readNextPose.1 = PoseResult.ok q) ∧
        (RawReader.readNextDepthFrame dq rq now junk s.readNextPose.2).ok
          = true)) := by
  refine ⟨fun α x => rfl, ?_, ?_, ?_⟩
  · intro hf
    rcases hp : s.readNextPose with ⟨r, s1⟩
    rw [hp] at hf
    simp at hf
    subst hf
    simp [RawReader.readNextData, hp]
  · intro p hp1
    rcases hp : s.readNextPose with ⟨r, s1⟩
    rw [hp] at hp1
    simp at hp1
    subst hp1
    simp [RawReader.readNextData, hp]
  · intro ok p d c a heq
    rcases hp : s.readNextPose with ⟨r, s1⟩
    rw [RawReader.readNextData, hp] at heq
    cases r with
    | thrown => simp at heq
    | fail =>
      simp at heq
      simp [hp, heq.1]
    | ok q =>
      simp at heq
      simp [hp, heq.1]

/-- Witness for C6: the base readNextData on a concrete value, and the raw
readNextData on a reader with no ground-truth stream, whose pose read fails
so the combined read reports false without reading a frame. -/
theorem c6_read_combined_witness :
    DepthReader.readNextData (42 : Nat) = (false, 42) ∧
    RawReader.readNextData 0 (0, 0) true true nullReader =
      DataOut.res false none [] [] nullReader ∧
    ((false = true) ↔ (∃ q, nullReader.readNextPose.1 = PoseResult.ok q) ∧
      (RawReader.readNextDepthFrame true true 0 (0, 0)
        nullReader.readNextPose.2).ok = true) := by
  have h := c6_read_combined 0 (0, 0) true true nullReader
  exact ⟨h.1 Nat 42, h.2.1 rfl, h.2.2.2 false none [] [] nullReader.readNextPose.2 (h.2.1 rfl)⟩

/-- C5: on a non-comment ground-truth line with at least 7 fields whose last
seven fields parse as numbers, readNextPose succeeds and returns
_transform * P, where P is the identity with its rotation block replaced by
the rotation matrix of the quaternion (scalar from the last field, vector
from the three preceding fields) and its translation column from the three
fields before those; the pose index is incremented and the line consumed. -/
theorem c5_pose_line_parse (s : RawReader) (ls : List (List Char))
    (l : List Char) (rest : List (List Char)) (tx ty tz qx qy qz qw : ℚ)
    (hgt : s.gt = some ls) (hdrop : ls.drop s.gtPos = l :: rest)
    (hnc : l.head? ≠ some '#')
    (hlen : 7 ≤ (splitFields ' ' l).length)
    (h1 : stofQ ((splitFields ' ' l).getD ((splitFields ' ' l).length - 7) [])
      = some tx)
    (h2 : stofQ ((splitFields ' ' l).getD ((splitFields ' ' l).length - 6) [])
      = some ty)
    (h3 : stofQ ((splitFields ' ' l).getD ((splitFields ' ' l).length - 5) [])
      = some tz)
    (h4 : stofQ ((splitFields ' ' l).getD ((splitFields ' ' l).length - 4) [])
      = some qx)
    (h5 : stofQ ((splitFields ' ' l).getD ((splitFields ' ' l).length - 3) [])
      = some qy)
    (h6 : stofQ ((splitFields ' ' l).getD ((splitFields ' ' l).length - 2) [])
      = some qz)
    (h7 : stofQ ((splitFields ' ' l).getD ((splitFields ' ' l).length - 1) [])
      = some qw) :
    s.readNextPose =
      (PoseResult.ok (mat4Mul s.transform (poseMatrix tx ty tz qx qy qz qw)),
       { s with gtPos := s.gtPos + 1, poseNum := s.poseNum + 1 }) := by
  have hnlt : ¬ ((splitFields ' ' l).length < 7) := by omega
  simp only [RawReader.readNextPose, hgt, hdrop, parsePoseLines, if_neg hnc,
    if_neg hnlt, h1, h2, h3, h4, h5, h6, h7]

/-- Witness for C5: under the identity transform, the 8-field line
"1.0 0.0 0.0 0.0 0.0 0.0 0.0 1.0" parses to the identity pose (translation
(0,0,0), identity rotation from the quaternion with w = 1), the line is
consumed and the pose index incremented. -/
theorem c5_pose_line_parse_witness :
    wr5.readNextPose =
      (PoseResult.ok mat4Id, { wr5 with gtPos := 1, poseNum := 0 }) ∧
    poseMatrix 0 0 0 0 0 0 1 = mat4Id := by
  have hv1 : stofQ (str "1.0") = some 1 := by
    simp only [stofQ, str]
    norm_num +decide [takeDigits, digitVal]
  have hv0 : stofQ (str "0.0") = some 0 := by
    simp only [stofQ, str]
    norm_num +decide [takeDigits, digitVal]
  have hs : splitFields ' ' gtLineC5 =
      [str "1.0", str "0.0", str "0.0", str "0.0", str "0.0", str "0.0",
       str "0.0", str "1.0"] := by decide
  have hid : poseMatrix 0 0 0 0 0 0 1 = mat4Id := by
    funext i j
    fin_cases i <;> fin_cases j <;> norm_num [mat4Id, poseMatrix, quatRot, Matrix.vecHead, Matrix.vecTail]
  have hmat2 : mat4Mul wr5.transform (poseMatrix 0 0 0 0 0 0 1) = mat4Id := by
    funext i j
    fin_cases i <;> fin_cases j <;>
      norm_num [mat4Mul, mat4Id, poseMatrix, quatRot, wr5, nullReader, Matrix.vecHead, Matrix.vecTail]
  have h := c5_pose_line_parse wr5 [gtLineC5] gtLineC5 [] 0 0 0 0 0 0 1
    rfl rfl (by decide) (by decide)
    (by rw [hs]; exact hv0) (by rw [hs]; exact hv0) (by rw [hs]; exact hv0)
    (by rw [hs]; exact hv0) (by rw [hs]; exact hv0) (by rw [hs]; exact hv0)
    (by rw [hs]; exact hv1)
  rw [h, hmat2]
  exact ⟨rfl, hid⟩

/-- Once the static epoch is captured, every later pacer invocation at time t
sets the frame index to ceil((t - epoch) * fps); fps and the epoch are
preserved along the way. -/
theorem runPacer_frame_of_epoch (us : List ℚ) (t : ℚ) (s : RawReader) (e : ℚ)
    (hf : s.fps ≠ 0) (he : s.epoch = some e) :
    (runPacer (us ++ [t]) s).frame = ⌈(t - e) * (s.fps : ℚ)⌉ := by
  induction us generalizing s with
  | nil => simp [runPacer, get_next_frame, hf, he]
  | cons u us ih =>
    have hstep : (get_next_frame u s).1 =
        { s with frame := ⌈(u - e) * (s.fps : ℚ)⌉, epoch := some e } := by
      simp [get_next_frame, hf, he]
    have := ih (get_next_frame u s).1 (by rw [hstep]; exact hf)
      (by rw [hstep])
    rw [List.cons_append, runPacer, this, hstep]

/-- C3: a pacer invocation with fps 0 increments the frame index by exactly
one and sleeps zero seconds; with fps > 0 the first invocation captures its
wall-clock time t0 as the epoch (frame ceil((t0 - t0) * fps) = 0) and every
later invocation at time t sets the frame index to
ceil((t - t0) * fps), elapsed seconds since the first invocation times fps,
which can jump by more than one per call. -/
theorem c3_pacer_frame_update (s : RawReader) (now t0 t : ℚ) (us : List ℚ) :
    (s.fps = 0 → (get_next_frame now s).1.frame = s.frame + 1 ∧
      (get_next_frame now s).2 = 0) ∧
    (s.fps ≠ 0 → s.epoch = none →
      (get_next_frame t0 s).1.frame = ⌈(t0 - t0) * (s.fps : ℚ)⌉ ∧
      (runPacer (t0 :: (us ++ [t])) s).frame = ⌈(t - t0) * (s.fps : ℚ)⌉) := by
  constructor
  · intro h0
    constructor
    · simp [get_next_frame, h0]
    · simp [get_next_frame, h0]
  · intro hf he
    have hstep : (get_next_frame t0 s).1 =
        { s with frame := ⌈(t0 - t0) * (s.fps : ℚ)⌉, epoch := some t0 } := by
      simp [get_next_frame, hf, he]
    constructor
    · rw [hstep]
    · rw [runPacer, runPacer_frame_of_epoch us t (get_next_frame t0 s).1 t0
        (by rw [hstep]; exact hf) (by rw [hstep]), hstep]

/-- Witness for C3: with fps 0 a call advances the frame by one with no
sleep; with fps 2, invocations at times 0 and 3/2 seconds set the frame
index to 0 and then to ceil(3/2 * 2) = 3, a jump of more than one. -/
theorem c3_pacer_frame_update_witness :
    ((get_next_frame 0 nullReader).1.frame = nullReader.frame + 1 ∧
      (get_next_frame 0 nullReader).2 = 0) ∧
    (runPacer (0 :: ([] ++ [3 / 2])) wrPacer2).frame = 3 := by
  refine ⟨(c3_pacer_frame_update nullReader 0 0 0 []).1 rfl, ?_⟩
  have h := ((c3_pacer_frame_update wrPacer2 0 0 (3 / 2) []).2
    (by decide) rfl).2
  rw [h]
  have hfps : ((wrPacer2.fps : ℚ)) = 2 := by norm_num [wrPacer2, nullReader]
  rw [hfps, show ((3 : ℚ) / 2 - 0) * 2 = 3 by norm_num]
  norm_num

/-- readNextDepthFrame returns true exactly when the element counter total
reaches expected_size. -/
theorem readFrame_ok_iff (rd rc : Bool) (now : ℚ) (junk : Nat × Nat)
    (s : RawReader) :
    (RawReader.readNextDepthFrame rd rc now junk s).ok = true ↔
      (readCtxOf rd rc now junk s).total = (readCtxOf rd rc now junk s).expected := by
  have h : (RawReader.readNextDepthFrame rd rc now junk s).ok
      = decide ((readCtxOf rd rc now junk s).total
        = (readCtxOf rd rc now junk s).expected) := rfl
  rw [h, decide_eq_true_eq]

/-- C4 amended: readNextDepthFrame returns true iff the elements actually
transferred for the requested channels (the two dimension pairs plus the
depth and color payloads that were requested) reach the expected count for
those channels; when both channels are requested a file truncated before one
full frame record makes the read fail (a successful read implies the whole
record fits in the file); the failure message distinguishes a zero transfer
("End of file.") from a non-zero short transfer ("End of file(garbage
found)."). Truncation confined to the payload of a skipped (null-pointer)
channel is not detected, since the reader seeks past it without reading. -/
theorem c4_read_success_iff_full_transfer (rd rc : Bool) (now : ℚ)
    (junk : Nat × Nat) (s : RawReader) :
    ((RawReader.readNextDepthFrame rd rc now junk s).ok = true ↔
      (readCtxOf rd rc now junk s).r1 + (readCtxOf rd rc now junk s).r2
        + (if rd then (readCtxOf rd rc now junk s).dAvail else 0)
        + (if rc then (readCtxOf rd rc now junk s).cAvail else 0)
      = 2 + (if rd then (readCtxOf rd rc now junk s).n1 else 0)
          + (if rc then (readCtxOf rd rc now junk s).n2 else 0)) ∧
    (rd = true → rc = true →
      (RawReader.readNextDepthFrame rd rc now junk s).ok = true →
      (readCtxOf rd rc now junk s).off + 16
          + 2 * (readCtxOf rd rc now junk s).n1
          + 3 * (readCtxOf rd rc now junk s).n2
        ≤ ((get_next_frame now s).1).rawFile.length) ∧
    ((RawReader.readNextDepthFrame rd rc now junk s).msg =
      if (readCtxOf rd rc now junk s).total = (readCtxOf rd rc now junk s).expected
      then none
      else some (if (readCtxOf rd rc now junk s).total = 0 then "End of file."
                 else "End of file(garbage found).")) ∧
    ("End of file." : String) ≠ "End of file(garbage found)." := by
  refine ⟨?_, ?_, rfl, by decide⟩
  · rw [readFrame_ok_iff]
    have htot : (readCtxOf rd rc now junk s).total
        = (readCtxOf rd rc now junk s).r1
          + (if rd then (readCtxOf rd rc now junk s).dAvail
             else (readCtxOf rd rc now junk s).n1)
          + (readCtxOf rd rc now junk s).r2
          + (if rc then (readCtxOf rd rc now junk s).cAvail
             else (readCtxOf rd rc now junk s).n2) := rfl
    have hexp : (readCtxOf rd rc now junk s).expected
        = 2 + (readCtxOf rd rc now junk s).n1 + (readCtxOf rd rc now junk s).n2 := rfl
    rw [htot, hexp]
    cases rd <;> cases rc <;> simp <;> omega
  · intro hrd hrc hok2
    subst hrd
    subst hrc
    rw [readFrame_ok_iff] at hok2
    have htot : (readCtxOf true true now junk s).total
        = (readCtxOf true true now junk s).r1 + (readCtxOf true true now junk s).dAvail
          + (readCtxOf true true now junk s).r2 + (readCtxOf true true now junk s).cAvail := rfl
    have hexp : (readCtxOf true true now junk s).expected
        = 2 + (readCtxOf true true now junk s).n1 + (readCtxOf true true now junk s).n2 := rfl
    have e1 : (readCtxOf true true now junk s).r1
        = min 1 ((((get_next_frame now s).1).rawFile.length
            - (readCtxOf true true now junk s).off) / 8) := rfl
    have e2 : (readCtxOf true true now junk s).pos1
        = (readCtxOf true true now junk s).off + 8 * (readCtxOf true true now junk s).r1 := rfl
    have e3 : (readCtxOf true true now junk s).dAvail
        = min (readCtxOf true true now junk s).n1
            ((((get_next_frame now s).1).rawFile.length
              - (readCtxOf true true now junk s).pos1) / 2) := rfl
    have e4 : (readCtxOf true true now junk s).pos2
        = (readCtxOf true true now junk s).pos1
          + 2 * (readCtxOf true true now junk s).dAvail := rfl
    have e5 : (readCtxOf true true now junk s).r2
        = min 1 ((((get_next_frame now s).1).rawFile.length
            - (readCtxOf true true now junk s).pos2) / 8) := rfl
    have e6 : (readCtxOf true true now junk s).pos3
        = (readCtxOf true true now junk s).pos2 + 8 * (readCtxOf true true now junk s).r2 := rfl
    have e7 : (readCtxOf true true now junk s).cAvail
        = min (readCtxOf true true now junk s).n2
            ((((get_next_frame now s).1).rawFile.length
              - (readCtxOf true true now junk s).pos3) / 3) := rfl
    omega

/-- Witness for C4: on the complete 21-byte one-frame file a full read
succeeds, and by the theorem the whole frame record therefore fits in the
file. -/
theorem c4_read_success_iff_full_transfer_witness :
    (RawReader.readNextDepthFrame true true 0 (0, 0) w4r).ok = true ∧
    (readCtxOf true true 0 (0, 0) w4r).off + 16
        + 2 * (readCtxOf true true 0 (0, 0) w4r).n1
        + 3 * (readCtxOf true true 0 (0, 0) w4r).n2
      ≤ ((get_next_frame 0 w4r).1).rawFile.length := by
  have h := c4_read_success_iff_full_transfer true true 0 (0, 0) w4r
  exact ⟨by decide, h.2.1 rfl rfl (by decide)⟩

/-- C4 counterexample: with the color channel skipped (null raw_rgb), a read
of a file truncated before one full frame record (18 bytes instead of the
21-byte record announced by its header) still returns true, because the
reader seeks past the skipped color payload without checking it. -/
theorem c4_truncated_read_returns_true_counterexample :
    constructRaw 0 false mat4Id false none (some w4truncFile)
      = ConsResult.ok w4trunc ∧
    w4truncFile.length < sizeOfFrame w4trunc.width w4trunc.height ∧
    (RawReader.readNextDepthFrame true false 0 (0, 0) w4trunc).ok = true :=
  ⟨rfl, by decide, by decide⟩

/-- C7 amended: for the same frame of the same container file, a read with a
null color pointer stores exactly the same depth bytes as a full read; the
null-color read advances the file cursor past the skipped color payload by
seeking (pos3 + 3 * n2); and whenever the full read succeeds, the null-color
read returns the same boolean result and leaves the file cursor in the same
place. When the color payload is truncated the two boolean results can
differ (see the counterexample), which is the one correction to the claim. -/
theorem c7_null_color_same_depth (now : ℚ) (junk : Nat × Nat) (s : RawReader) :
    (RawReader.readNextDepthFrame true false now junk s).depthBytes
      = (RawReader.readNextDepthFrame true true now junk s).depthBytes ∧
    (RawReader.readNextDepthFrame true false now junk s).after.pos
      = (readCtxOf true false now junk s).pos3
        + 3 * (readCtxOf true false now junk s).n2 ∧
    ((RawReader.readNextDepthFrame true true now junk s).ok = true →
      (RawReader.readNextDepthFrame true false now junk s).ok = true ∧
      (RawReader.readNextDepthFrame true false now junk s).after
        = (RawReader.readNextDepthFrame true true now junk s).after) := by
  refine ⟨rfl, rfl, fun hT => ?_⟩
  rw [readFrame_ok_iff] at hT
  have htotT : (readCtxOf true true now junk s).total
      = (readCtxOf true true now junk s).r1 + (readCtxOf true true now junk s).dAvail
        + (readCtxOf true true now junk s).r2 + (readCtxOf true true now junk s).cAvail := rfl
  have hexpT : (readCtxOf true true now junk s).expected
      = 2 + (readCtxOf true true now junk s).n1 + (readCtxOf true true now junk s).n2 := rfl
  have htotF : (readCtxOf true false now junk s).total
      = (readCtxOf true true now junk s).r1 + (readCtxOf true true now junk s).dAvail
        + (readCtxOf true true now junk s).r2 + (readCtxOf true true now junk s).n2 := rfl
  have hexpF : (readCtxOf true false now junk s).expected
      = (readCtxOf true true now junk s).expected := rfl
  have hr1le : (readCtxOf true true now junk s).r1 ≤ 1 := Nat.min_le_left _ _
  have hr2le : (readCtxOf true true now junk s).r2 ≤ 1 := Nat.min_le_left _ _
  have hdle : (readCtxOf true true now junk s).dAvail
      ≤ (readCtxOf true true now junk s).n1 := Nat.min_le_left _ _
  have hcle : (readCtxOf true true now junk s).cAvail
      ≤ (readCtxOf true true now junk s).n2 := Nat.min_le_left _ _
  have hcfull : (readCtxOf true true now junk s).cAvail
      = (readCtxOf true true now junk s).n2 := by omega
  constructor
  · rw [readFrame_ok_iff, htotF, hexpF]
    omega
  · have hpos : (readCtxOf true false now junk s).pos4
        = (readCtxOf true true now junk s).pos4 := by
      have hF : (readCtxOf true false now junk s).pos4
          = (readCtxOf true true now junk s).pos3
            + 3 * (readCtxOf true true now junk s).n2 := rfl
      have hT2 : (readCtxOf true true now junk s).pos4
          = (readCtxOf true true now junk s).pos3
            + 3 * (readCtxOf true true now junk s).cAvail := rfl
      omega
    have haf : (RawReader.readNextDepthFrame true false now junk s).after
        = { (get_next_frame now s).1 with pos := (readCtxOf true false now junk s).pos4 } := rfl
    have haT : (RawReader.readNextDepthFrame true true now junk s).after
        = { (get_next_frame now s).1 with pos := (readCtxOf true true now junk s).pos4 } := rfl
    rw [haf, haT, hpos]

/-- C7 counterexample: on a file whose color payload is truncated, the full
read of frame 0 returns false while the null-color read of the same frame
returns true - the two boolean results are not equal, refuting the claim as
stated. -/
theorem c7_boolean_result_differs_counterexample :
    constructRaw 0 false mat4Id false none (some w7file) = ConsResult.ok w7r ∧
    (RawReader.readNextDepthFrame true true 0 (0, 0) w7r).ok = false ∧
    (RawReader.readNextDepthFrame true false 0 (0, 0) w7r).ok = true :=
  ⟨rfl, by decide, by decide⟩

/-- Witness for C7 on a complete one-frame file: same depth bytes, and since
the full read succeeds, the same boolean result and the same final cursor. -/
theorem c7_null_color_same_depth_witness :
    (RawReader.readNextDepthFrame true false 0 (0, 0) w7okr).depthBytes
      = (RawReader.readNextDepthFrame true true 0 (0, 0) w7okr).depthBytes ∧
    (RawReader.readNextDepthFrame true false 0 (0, 0) w7okr).ok = true ∧
    (RawReader.readNextDepthFrame true false 0 (0, 0) w7okr).after
      = (RawReader.readNextDepthFrame true true 0 (0, 0) w7okr).after := by
  have h := c7_null_color_same_depth 0 (0, 0) w7okr
  exact ⟨h.1, (h.2.2 (by decide)).1, (h.2.2 (by decide)).2⟩

/-- Normal form of readNextDepthFrame when fps is 0: the pacer increments
the frame index and everything else is frameCalc on the file, the header
resolution and the incremented frame index. -/
theorem readNextDepthFrame_fps0 (rd rc : Bool) (t : ℚ) (j : Nat × Nat)
    (s : RawReader) (h : s.fps = 0) :
    RawReader.readNextDepthFrame rd rc t j s =
      { ok := decide ((frameCalc s.rawFile s.width s.height (s.frame + 1) rd rc j).total
          = (frameCalc s.rawFile s.width s.height (s.frame + 1) rd rc j).expected),
        depthBytes := (frameCalc s.rawFile s.width s.height (s.frame + 1) rd rc j).depthBytes,
        colorBytes := (frameCalc s.rawFile s.width s.height (s.frame + 1) rd rc j).colorBytes,
        msg := if (frameCalc s.rawFile s.width s.height (s.frame + 1) rd rc j).total
            = (frameCalc s.rawFile s.width s.height (s.frame + 1) rd rc j).expected
          then none
          else some (if (frameCalc s.rawFile s.width s.height (s.frame + 1) rd rc j).total = 0
            then "End of file." else "End of file(garbage found)."),
        after := { s with
                   frame := s.frame + 1
                   pos := (frameCalc s.rawFile s.width s.height (s.frame + 1) rd rc j).pos4 } } := by
  have hs1 : (get_next_frame t s).1 = { s with frame := s.frame + 1 } := by
    simp [get_next_frame, h]
  simp [RawReader.readNextDepthFrame, hs1]

/-- Two states with the same observed fields and fps 0 give the same outputs
on one read, and the resulting states again agree on the observed fields. -/
theorem readOut_congr (rd rc : Bool) (t : ℚ) (j : Nat × Nat) (s s2 : RawReader)
    (hobs : readObs s = readObs s2) (h0 : s.fps = 0) :
    ((RawReader.readNextDepthFrame rd rc t j s).ok,
     (RawReader.readNextDepthFrame rd rc t j s).depthBytes,
     (RawReader.readNextDepthFrame rd rc t j s).colorBytes)
      = ((RawReader.readNextDepthFrame rd rc t j s2).ok,
         (RawReader.readNextDepthFrame rd rc t j s2).depthBytes,
         (RawReader.readNextDepthFrame rd rc t j s2).colorBytes) ∧
    readObs (RawReader.readNextDepthFrame rd rc t j s).after
      = readObs (RawReader.readNextDepthFrame rd rc t j s2).after := by
  obtain ⟨h1, h2, h3, h4, h5⟩ : s.rawFile = s2.rawFile ∧ s.width = s2.width
      ∧ s.height = s2.height ∧ s.frame = s2.frame ∧ s.fps = s2.fps := by
    simpa [readObs, Prod.ext_iff] using hobs
  have h02 : s2.fps = 0 := h5 ▸ h0
  rw [readNextDepthFrame_fps0 rd rc t j s h0, readNextDepthFrame_fps0 rd rc t j s2 h02]
  simp [readObs, h1, h2, h3, h4, h5]

/-- Reads preserve the file bytes, the header resolution and fps when fps
is 0, and advance the frame index by one. -/
theorem read_after_fps0 (rd rc : Bool) (t : ℚ) (j : Nat × Nat) (s : RawReader)
    (h0 : s.fps = 0) :
    (RawReader.readNextDepthFrame rd rc t j s).after.rawFile = s.rawFile ∧
    (RawReader.readNextDepthFrame rd rc t j s).after.width = s.width ∧
    (RawReader.readNextDepthFrame rd rc t j s).after.height = s.height ∧
    (RawReader.readNextDepthFrame rd rc t j s).after.fps = s.fps := by
  rw [readNextDepthFrame_fps0 rd rc t j s h0]
  exact ⟨rfl, rfl, rfl, rfl⟩

/-- A sequence of reads with fps 0 preserves the file bytes, the header
resolution and fps. -/
theorem runReads_static (rd rc : Bool) (ins : List (ℚ × (Nat × Nat)))
    (s : RawReader) (h0 : s.fps = 0) :
    (runReads rd rc ins s).2.rawFile = s.rawFile ∧
    (runReads rd rc ins s).2.width = s.width ∧
    (runReads rd rc ins s).2.height = s.height ∧
    (runReads rd rc ins s).2.fps = s.fps := by
  induction ins generalizing s with
  | nil => exact ⟨rfl, rfl, rfl, rfl⟩
  | cons p ins ih =>
    obtain ⟨t, j⟩ := p
    have hstep := read_after_fps0 rd rc t j s h0
    have h0n : (RawReader.readNextDepthFrame rd rc t j s).after.fps = 0 :=
      hstep.2.2.2.trans h0
    have := ih (RawReader.readNextDepthFrame rd rc t j s).after h0n
    simp only [runReads]
    exact ⟨this.1.trans hstep.1, (this.2.1).trans hstep.2.1,
      (this.2.2.1).trans hstep.2.2.1, (this.2.2.2).trans hstep.2.2.2⟩

/-- Sequences of reads from two observably equal fps-0 states produce
identical output lists and observably equal final states. -/
theorem runReads_congr (rd rc : Bool) (ins : List (ℚ × (Nat × Nat)))
    (s s2 : RawReader) (hobs : readObs s = readObs s2) (h0 : s.fps = 0) :
    (runReads rd rc ins s).1 = (runReads rd rc ins s2).1 ∧
    readObs (runReads rd rc ins s).2 = readObs (runReads rd rc ins s2).2 := by
  induction ins generalizing s s2 with
  | nil => exact ⟨rfl, hobs⟩
  | cons p ins ih =>
    obtain ⟨t, j⟩ := p
    have hcong := readOut_congr rd rc t j s s2 hobs h0
    have h0n : (RawReader.readNextDepthFrame rd rc t j s).after.fps = 0 :=
      (read_after_fps0 rd rc t j s h0).2.2.2.trans h0
    have htail := ih (RawReader.readNextDepthFrame rd rc t j s).after
      (RawReader.readNextDepthFrame rd rc t j s2).after hcong.2 h0n
    simp only [runReads]
    refine ⟨?_, htail.2⟩
    rw [htail.1]
    obtain ⟨ha, hb, hc⟩ : _ ∧ _ ∧ _ := by simpa [Prod.ext_iff] using hcong.1
    rw [ha, hb, hc]

/-- Fields of a successfully constructed RawDepthReader: frame sentinel -1,
cursor rewound to 0, fps copied from the configuration. -/
theorem constructRaw_ok_fields (fps : Nat) (bl : Bool) (T : Mat4) (gp : Bool)
    (gc : Option (List (List Char))) (raw : Option (List Nat)) (c : RawReader)
    (hok : constructRaw fps bl T gp gc raw = ConsResult.ok c) :
    c.frame = -1 ∧ c.pos = 0 ∧ c.fps = fps := by
  cases gp with
  | false =>
    cases raw with
    | none => simp [constructRaw] at hok
    | some bytes =>
      by_cases hlen : 8 ≤ bytes.length
      · simp only [constructRaw, if_pos hlen] at hok
        injection hok with h
        subst h
        exact ⟨rfl, rfl, rfl⟩
      · simp only [constructRaw, if_neg hlen] at hok
        exact ConsResult.noConfusion hok
  | true =>
    cases gc with
    | none => simp [constructRaw] at hok
    | some ls =>
      cases raw with
      | none => simp [constructRaw] at hok
      | some bytes =>
        by_cases hlen : 8 ≤ bytes.length
        · simp only [constructRaw, if_pos hlen] at hok
          injection hok with h
          subst h
          exact ⟨rfl, rfl, rfl⟩
        · simp only [constructRaw, if_neg hlen] at hok
          exact ConsResult.noConfusion hok

/-- C2 amended: on any valid container file read with fps 0 (the
deterministic, unthrottled mode), restart() followed by any sequence of
reads produces output byte-identical to the same sequence of reads performed
right after construction, whatever reads happened in between. With fps > 0
the frame index is recomputed from the wall clock against a pacer epoch that
restart does not reset (it is a function-local static), so byte-identical
replay is not guaranteed - see the counterexample. -/
theorem c2_restart_replay_fps_zero (fps : Nat) (bl : Bool) (T : Mat4)
    (gp : Bool) (gc : Option (List (List Char))) (raw : Option (List Nat))
    (c : RawReader)
    (hok : constructRaw fps bl T gp gc raw = ConsResult.ok c)
    (hfps : c.fps = 0) (rd rc : Bool)
    (pre ins : List (ℚ × (Nat × Nat))) :
    (runReads rd rc ins (RawReader.restart (runReads rd rc pre c).2)).1
      = (runReads rd rc ins c).1 := by
  have hfields := constructRaw_ok_fields fps bl T gp gc raw c hok
  have hstat := runReads_static rd rc pre c hfps
  have hobs : readObs (RawReader.restart (runReads rd rc pre c).2) = readObs c := by
    simp only [readObs, RawReader.restart]
    rw [hstat.1, hstat.2.1, hstat.2.2.1, hstat.2.2.2, hfields.1]
  have h0r : (RawReader.restart (runReads rd rc pre c).2).fps = 0 := by
    have : (RawReader.restart (runReads rd rc pre c).2).fps
        = (runReads rd rc pre c).2.fps := rfl
    rw [this, hstat.2.2.2, hfps]
  exact (runReads_congr rd rc ins _ c hobs h0r).1

/-- Witness for C2: on the two-frame file at fps 0, one read, then restart,
then two reads reproduce exactly the first two reads after construction. -/
theorem c2_restart_replay_fps_zero_witness :
    (runReads true true [(0, (0, 0)), (0, (0, 0))]
        (RawReader.restart (runReads true true [(0, (0, 0))] w2r).2)).1
      = (runReads true true [(0, (0, 0)), (0, (0, 0))] w2r).1 :=
  c2_restart_replay_fps_zero 0 false mat4Id false none (some c2file) w2r rfl
    rfl true true [(0, (0, 0))] [(0, (0, 0)), (0, (0, 0))]

/-- C2 counterexample: with fps 1, a first read at wall-clock 0 delivers
frame 0, but after restart() a read at wall-clock 5 recomputes the frame
index as ceil((5 - epoch) * 1) = 5 against the pacer epoch that restart did
not reset, seeks past the end of the two-frame file and fails - the replay
is not byte-identical to the first read after construction. -/
theorem c2_restart_replay_positive_fps_counterexample :
    constructRaw 1 false mat4Id false none (some c2file) = ConsResult.ok c2r1 ∧
    (runReads true true [(5, (0, 0))]
        (RawReader.restart (runReads true true [(0, (0, 0))] c2r1).2)).1
      ≠ (runReads true true [(0, (0, 0))] c2r1).1 := by
  refine ⟨rfl, ?_⟩
  have hfps : c2r1.fps = 1 := rfl
  have hep : c2r1.epoch = none := rfl
  have hr1 : (get_next_frame 0 c2r1).1 = { c2r1 with frame := 0, epoch := some 0 } := by
    simp [get_next_frame, hfps, hep]
  have hread1 : RawReader.readNextDepthFrame true true 0 (0, 0) c2r1 =
      { ok := true, depthBytes := [10, 11], colorBytes := [1, 2, 3], msg := none,
        after := { c2r1 with frame := 0, epoch := some 0, pos := 21 } } := by
    simp only [RawReader.readNextDepthFrame, hr1]
    rfl
  have hrun1 : runReads true true [(0, (0, 0))] c2r1 =
      ([(true, [10, 11], [1, 2, 3])],
       { c2r1 with frame := 0, epoch := some 0, pos := 21 }) := by
    simp only [runReads, hread1]
  have hrs : RawReader.restart { c2r1 with frame := 0, epoch := some 0, pos := 21 }
      = { c2r1 with frame := -1, epoch := some 0, pos := 0, poseNum := -1 } := rfl
  have hr2 : (get_next_frame 5
        { c2r1 with frame := -1, epoch := some 0, pos := 0, poseNum := -1 }).1
      = { c2r1 with frame := 5, epoch := some 0, pos := 0, poseNum := -1 } := by
    simp [get_next_frame, hfps]
  have hread2 : RawReader.readNextDepthFrame true true 5 (0, 0)
      { c2r1 with frame := -1, epoch := some 0, pos := 0, poseNum := -1 } =
      { ok := false, depthBytes := [], colorBytes := [],
        msg := some "End of file.",
        after := { c2r1 with frame := 5, epoch := some 0, pos := 105, poseNum := -1 } } := by
    simp only [RawReader.readNextDepthFrame, hr2]
    rfl
  rw [hrun1, hrs]
  simp only [runReads, hread2]
  decide

